import Mathlib

/-!
Verification of the git-password credential helper (src/git-password/main.c)
against its natural-language specification.

The development shallowly embeds the parts of main.c that the claims are
about:

* the caller trust verifier `is_git_calling_us` (main.c:72-113), modelled over
  an explicit process-table snapshot (the KERN_PROC_ALL read, giving each
  entry's p_pid and p_comm) plus a function `live : Nat → Nat` giving the
  parent pid returned by the per-hop KERN_PROC_PID sysctl at main.c:95-98; the
  unbounded while-loop becomes a fuel-indexed recursion where fuel exhaustion
  (`none`) stands for non-termination;
* the key deriver `trim_repository` (main.c:239-252) over character lists
  (C strings), with the in-place write of a terminator after the first slash
  modelled as truncation;
* the credential resolver `get_username` / `get_password`
  (main.c:255-290) together with the keychain calls `find_keychain_item`
  (main.c:150-211) and `create_keychain_item` (main.c:213-226).  The vendor
  keychain is an external collaborator, so its responses (the OSStatus of the
  find call plus the stored record's account and password data, and the
  OSStatus of the create call) are inputs of the embedding; `security`
  (main.c:51-55) exits fatally on any non-zero status, modelled by the
  `Except Int` error channel;
* `main` (main.c:292-308) as `mainRun`, which records the externally visible
  effects (trust check, store find, store create, interactive prompts) as an
  event trace so that ordering and absence of side effects can be stated.

`exit(-1)` always carries a non-zero exit status, so every `Outcome.fatal`
result is a non-zero exit; `fatal` prints exactly one `fatal: `-prefixed
diagnostic line, and both the usage and the not-authorized paths use the
identical message "can only be used by git" (`Fmsg.onlyGit`).
-/

namespace GitPassword

/-- One process-table record as used by the ancestry walk: the process id and
executable name (the `p_pid` and `p_comm` fields the C code reads from each
`kinfo_proc` entry of the KERN_PROC_ALL snapshot). -/
structure ProcRec where
  pid : Nat
  comm : String
  deriving DecidableEq

/-- Lookup of a pid in the snapshot: the inner `for` loop of main.c:89-105
takes the first entry whose `p_pid` equals the pid being searched. -/
def findRec (S : List ProcRec) (p : Nat) : Option ProcRec :=
  S.find? (fun r => r.pid = p)

/-- Embedding of `is_git_calling_us` (main.c:72-113).  `S` is the process
table snapshot taken once at the start (main.c:80-84); `live p` is the parent
pid that the per-hop `sysctl(KERN_PROC_PID, p)` read at main.c:95-98 reports
for `p`; the walk starts at `getppid()`.  The C `while (parent_pid &&
parent_pid != 1)` loop stops (returning 0) at pid 0 or pid 1, returns 0 when
the pid is not found in the snapshot (main.c:107-109), returns 1 as soon as a
found entry's name is "git" (main.c:100-101), and otherwise advances to the
parent pid reported by the per-hop read.  Fuel exhaustion yields `none`
(the loop did not finish within `fuel` iterations). -/
def is_git_calling_us (S : List ProcRec) (live : Nat → Nat) :
    Nat → Nat → Option Bool
  | 0, _ => none
  | fuel + 1, parent_pid =>
    if parent_pid = 0 ∨ parent_pid = 1 then some false
    else
      match findRec S parent_pid with
      | none => some false
      | some r =>
        if r.comm = "git" then some true
        else is_git_calling_us S live fuel (live parent_pid)

/-- `n`-fold application of the per-hop parent function: the ancestry chain
starting from a pid (`iterLive live p 0 = p` is the immediate parent the walk
starts from, i.e. depth 1 of the ancestry). -/
def iterLive (live : Nat → Nat) : Nat → Nat → Nat
  | p, 0 => p
  | p, n + 1 => iterLive live (live p) n

/-- A pid at which the walk can keep going: not 0, not 1, and present in the
snapshot. -/
def okPid (S : List ProcRec) (q : Nat) : Prop :=
  q ≠ 0 ∧ q ≠ 1 ∧ (findRec S q).isSome

instance (S : List ProcRec) (q : Nat) : Decidable (okPid S q) :=
  inferInstanceAs (Decidable (q ≠ 0 ∧ q ≠ 1 ∧ (findRec S q).isSome = true))

/-- Executable name recorded in the snapshot for a pid, when present. -/
def commAt (S : List ProcRec) (q : Nat) : Option String :=
  (findRec S q).map (fun r => r.comm)

/-- The trust condition exactly as claim C5 words it, for comparison with the
embedded walk: the trusted name "git" appears in the ancestry chain at some
depth ≥ 1 (chain index 0 is the immediate parent), every pid up to that point
is different from the root pid 1 and is found in the snapshot.  The claim
names only pid 1 and chain breakage as the false-terminals. -/
def specTrusted (S : List ProcRec) (live : Nat → Nat) (parent_pid : Nat) : Prop :=
  ∃ n, (∀ m, m ≤ n →
         iterLive live parent_pid m ≠ 1 ∧
         (findRec S (iterLive live parent_pid m)).isSome) ∧
       commAt S (iterLive live parent_pid n) = some "git"

/-- Helper for `trim_repository`: keep everything up to and including the
first '/' of the list (the `strchr` at main.c:244 followed by writing a
terminator right after the slash at main.c:248); `none` when no '/' occurs. -/
def truncAfterFirstSlash : List Char → Option (List Char)
  | [] => none
  | c :: cs =>
    if c = '/' then some [c]
    else (truncAfterFirstSlash cs).map (fun t => c :: t)

/-- Embedding of `trim_repository` (main.c:239-252): when the URL is longer
than "https://" (8 characters), find the first '/' at or after index 8 and cut
the string right after it; otherwise return the URL unchanged.  C strings are
modelled as character lists. -/
def trim_repository (repository : List Char) : List Char :=
  if 8 < repository.length then
    match truncAfterFirstSlash (repository.drop 8) with
    | some t => repository.take 8 ++ t
    | none => repository
  else repository

/-- `trim_repository` lifted to `String` (a Lean string is a structure holding
its character list). -/
def trim_repositoryS (s : String) : String :=
  ⟨trim_repository s.data⟩

/-- macOS Security framework status for "the item was not found"
(`errSecItemNotFound`). -/
def errSecItemNotFound : Int := -25300

/-- macOS Security framework status for "the item already exists"
(`errSecDuplicateItem`). -/
def errSecDuplicateItem : Int := -25299

/-- The data the keychain holds for a record: the account (username) attribute
and the password bytes. -/
structure KeyChainData where
  username : String
  password : String
  deriving DecidableEq

/-- Response of the store's find call: the OSStatus returned by
`SecKeychainFindGenericPassword` (main.c:160) together with the stored
record's data, which is read (main.c:166-199) only when the status is 0. -/
structure FindRaw where
  status : Int
  item : KeyChainData
  deriving DecidableEq

/-- The `KeyChainItem` struct of main.c:143-148; `password` is `none` exactly
when the C code leaves it NULL (the `include_password == false` branch,
main.c:191-194). -/
structure KeyChainItem where
  username : String
  password : Option String
  deriving DecidableEq

/-- Embedding of `find_keychain_item` (main.c:150-211).  The switch on the
find status: 0 (`errSecSuccess`) builds the result from the stored attributes,
copying the password data only when `include_password` is set;
`errSecItemNotFound` returns NULL (modelled `Option.none`); any other status
reaches `security(status)` (main.c:206-207) which exits fatally, modelled by
the `Except.error` channel carrying the surfaced status. -/
def find_keychain_item (raw : FindRaw) (include_password : Bool) :
    Except Int (Option KeyChainItem) :=
  if raw.status = 0 then
    .ok (some { username := raw.item.username,
                password := if include_password then some raw.item.password else none })
  else if raw.status = errSecItemNotFound then
    .ok none
  else
    .error raw.status

/-- Embedding of `create_keychain_item` (main.c:213-226): the call passes the
record's label/account/service attributes and password to
`SecKeychainItemCreateFromContent` and hands the returned status to
`security` (main.c:225), which exits fatally on any non-zero status — there is
no special case for `errSecDuplicateItem`.  The record contents that the call
writes are tracked by the `createEv` trace event of the resolver. -/
def create_keychain_item (status : Int) : Except Int Unit :=
  if status = 0 then .ok () else .error status

/-- Externally visible effects of one invocation, in order: the caller-trust
check (the process-table reads of `is_git_calling_us`), a store lookup, an
interactive prompt with its label, and a store create with the record content
it writes. -/
inductive Event where
  | trustEv : Event
  | findEv (repository : String) : Event
  | promptEv (label : String) : Event
  | createEv (repository username password : String) : Event
  deriving DecidableEq

/-- Fatal diagnostics: `onlyGit` is the message "can only be used by git"
(used both for the failed trust check and for bad arguments, main.c:297-305);
`sec status` is the Security-framework message that `security_fatal`
(main.c:45-49) prints for a non-zero OSStatus. -/
inductive Fmsg where
  | onlyGit : Fmsg
  | sec (status : Int) : Fmsg
  deriving DecidableEq

/-- Result of one invocation: normal termination with the bytes written to
standard output, fatal termination via `fatal`/`security_fatal` (one
diagnostic line, `exit(-1)`, hence a non-zero exit status), or
non-termination of the ancestry walk (`hang`, fuel exhaustion). -/
inductive Outcome where
  | ok (output : String) : Outcome
  | fatal (msg : Fmsg) : Outcome
  | hang : Outcome
  deriving DecidableEq

/-- The external inputs of one invocation: the process-table snapshot, the
per-hop parent reads and the initial `getppid()` value for the trust check;
the argv vector; the remote URL reported by `git config remote.origin.url`;
the store's find response and create status; and the two values the user
would type at the `getpass` prompts. -/
structure Env where
  snapshot : List ProcRec
  live : Nat → Nat
  ppid : Nat
  args : List String
  originUrl : String
  findRaw : FindRaw
  createStatus : Int
  promptUser : String
  promptPass : String

/-- Embedding of `get_username` (main.c:255-272): derive the key from the
remote URL, look the key up without the password data; on a hit return the
stored username; on a miss prompt for a username, then for a password, create
the record with both entered fields, and return the entered username.  A
fatal status from find or create surfaces as `Outcome.fatal`.  The second
component is the trace of store and prompt events. -/
def get_username (env : Env) : Outcome × List Event :=
  let repository := trim_repositoryS env.originUrl
  match find_keychain_item env.findRaw false with
  | .error c => (.fatal (.sec c), [.findEv repository])
  | .ok (some item) => (.ok item.username, [.findEv repository])
  | .ok none =>
    let username := env.promptUser
    let password := env.promptPass
    match create_keychain_item env.createStatus with
    | .error c =>
      (.fatal (.sec c),
       [.findEv repository, .promptEv "Username: ", .promptEv "Password: ",
        .createEv repository username password])
    | .ok _ =>
      (.ok username,
       [.findEv repository, .promptEv "Username: ", .promptEv "Password: ",
        .createEv repository username password])

/-- Embedding of `get_password` (main.c:274-290): derive the key, look it up
with the password data; on a hit return the stored password; on a miss prompt
only for a password (no username prompt) and create the record with the empty
string as its username (main.c:286), returning the entered password. -/
def get_password (env : Env) : Outcome × List Event :=
  let repository := trim_repositoryS env.originUrl
  match find_keychain_item env.findRaw true with
  | .error c => (.fatal (.sec c), [.findEv repository])
  | .ok (some item) => (.ok (item.password.getD ""), [.findEv repository])
  | .ok none =>
    let password := env.promptPass
    match create_keychain_item env.createStatus with
    | .error c =>
      (.fatal (.sec c),
       [.findEv repository, .promptEv "Password: ",
        .createEv repository "" password])
    | .ok _ =>
      (.ok password,
       [.findEv repository, .promptEv "Password: ",
        .createEv repository "" password])

/-- An argv vector that `main` rejects: a count different from 2, or a second
argument that is neither "Username: " nor "Password: ". -/
def badArgs (args : List String) : Bool :=
  match args with
  | [_, a] => !(a = "Username: " || a = "Password: ")
  | _ => true

/-- Embedding of `main` (main.c:292-308): first the trust check
(`is_git_calling_us`, main.c:296 — before any argument validation), then the
argument-count check, then the dispatch on the prompt-kind literal; every
failing check calls `fatal("can only be used by git")`.  The trace starts
with the trust-check event; when the walk does not terminate (`none`) the
process hangs with no further effects. -/
def mainRun (env : Env) (fuel : Nat) : Outcome × List Event :=
  match is_git_calling_us env.snapshot env.live fuel env.ppid with
  | none => (.hang, [.trustEv])
  | some false => (.fatal .onlyGit, [.trustEv])
  | some true =>
    match env.args with
    | [_, arg] =>
      if arg = "Username: " then
        ((get_username env).1, .trustEv :: (get_username env).2)
      else if arg = "Password: " then
        ((get_password env).1, .trustEv :: (get_password env).2)
      else (.fatal .onlyGit, [.trustEv])
    | _ => (.fatal .onlyGit, [.trustEv])

/-- A pure model of the durable store content, for cross-invocation claims:
the record (account and password data) held under each key. -/
def Store : Type := String → Option KeyChainData

/-- The find response an error-free store gives for a key: status 0 with the
stored data on a hit, `errSecItemNotFound` on a miss (the item payload is
irrelevant and unread in that case). -/
def honestFind (store : Store) (key : String) : FindRaw :=
  match store key with
  | some d => { status := 0, item := d }
  | none => { status := errSecItemNotFound, item := { username := "", password := "" } }

/-- Store content after a successful create of `(username, password)` under
`key`. -/
def applyCreate (store : Store) (key username password : String) : Store :=
  fun k => if k = key then some { username := username, password := password } else store k

/-- Environment of one resolver invocation against an error-free store:
the find response is determined by the store content under the derived key
and the create call succeeds.  (The trust fields are irrelevant at the
resolver level.) -/
def honestEnv (store : Store) (url userIn passIn : String) : Env :=
  { snapshot := []
    live := fun _ => 1
    ppid := 1
    args := []
    originUrl := url
    findRaw := honestFind store (trim_repositoryS url)
    createStatus := 0
    promptUser := userIn
    promptPass := passIn }

/-! ## Theorems -/

theorem truncAfterFirstSlash_append (x s : List Char) (hx : '/' ∉ x) :
    truncAfterFirstSlash (x ++ '/' :: s) = some (x ++ ['/']) := by
  induction x with
  | nil => simp [truncAfterFirstSlash]
  | cons c cs ih =>
    have hc : c ≠ '/' := fun h => hx (List.mem_cons.mpr (Or.inl h.symm))
    have hx2 : '/' ∉ cs := fun h => hx (List.mem_cons.mpr (Or.inr h))
    simp [truncAfterFirstSlash, hc, ih hx2]

theorem trim_repository_shared (p s : List Char) (hp : 8 ≤ p.length)
    (hs : '/' ∉ p.drop 8) :
    trim_repository (p ++ '/' :: s) = p ++ ['/'] := by
  unfold trim_repository
  have hlen : 8 < (p ++ '/' :: s).length := by
    simp only [List.length_append, List.length_cons]
    omega
  rw [if_pos hlen]
  have hdrop : (p ++ '/' :: s).drop 8 = p.drop 8 ++ '/' :: s := by
    rw [List.drop_append_eq_append_drop, Nat.sub_eq_zero_of_le hp, List.drop_zero]
  rw [hdrop, truncAfterFirstSlash_append _ _ hs]
  have htake : (p ++ '/' :: s).take 8 = p.take 8 := by
    rw [List.take_append_eq_append_take, Nat.sub_eq_zero_of_le hp, List.take_zero,
      List.append_nil]
  show (p ++ '/' :: s).take 8 ++ (p.drop 8 ++ ['/']) = p ++ ['/']
  rw [htake, ← List.append_assoc, List.take_append_drop]

/-- C7: two remote URLs that share scheme and host (a common prefix `p` of at
least the 8 scheme characters containing no '/' past index 8) and differ only
beyond the first path separator after the host derive the same key; the
sample URL "https://example.com/org/repo.git" derives the key
"https://example.com/"; and every URL shorter than the scheme prefix
"https://" is returned unchanged. -/
theorem trim_repository_spec :
    (∀ p s1 s2 : List Char, 8 ≤ p.length → '/' ∉ p.drop 8 →
        trim_repository (p ++ '/' :: s1) = trim_repository (p ++ '/' :: s2)) ∧
    trim_repository "https://example.com/org/repo.git".data = "https://example.com/".data ∧
    (∀ u : List Char, u.length < 8 → trim_repository u = u) := by
  refine ⟨?_, ?_, ?_⟩
  · intro p s1 s2 hp hs
    rw [trim_repository_shared p s1 hp hs, trim_repository_shared p s2 hp hs]
  · decide
  · intro u hu
    unfold trim_repository
    rw [if_neg (by omega)]

/-- C7 witness: the shared-key part of `trim_repository_spec` applied to the
concrete host prefix "https://h" and the differing suffixes "a/b" and "c". -/
theorem trim_repository_spec_witness :
    trim_repository ("https://h".data ++ '/' :: "a/b".data) =
      trim_repository ("https://h".data ++ '/' :: "c".data) :=
  trim_repository_spec.1 "https://h".data "a/b".data "c".data (by decide) (by decide)

/-- C5 (amended): the walk, given enough fuel, returns `some true` exactly
when "git" is the snapshot name of some chain element whose whole prefix
(chain indices 0..n, index 0 being the immediate parent, i.e. ancestry depth
≥ 1) avoids pid 0, avoids the root pid 1, and is found in the snapshot. -/
theorem is_git_calling_us_iff (S : List ProcRec) (live : Nat → Nat)
    (fuel p : Nat) :
    is_git_calling_us S live fuel p = some true ↔
      ∃ n, n < fuel ∧ (∀ m, m ≤ n → okPid S (iterLive live p m)) ∧
        commAt S (iterLive live p n) = some "git" := by
  induction fuel generalizing p with
  | zero =>
    constructor
    · intro h; simp [is_git_calling_us] at h
    · rintro ⟨n, hn, -, -⟩; omega
  | succ fuel ih =>
    constructor
    · intro h
      simp only [is_git_calling_us] at h
      by_cases h01 : p = 0 ∨ p = 1
      · rw [if_pos h01] at h; simp at h
      · rw [if_neg h01] at h
        cases hf : findRec S p with
        | none => rw [hf] at h; simp at h
        | some r =>
          simp only [hf] at h
          by_cases hg : r.comm = "git"
          · refine ⟨0, Nat.succ_pos fuel, ?_, ?_⟩
            · intro m hm
              have hm0 : m = 0 := Nat.le_zero.mp hm
              subst hm0
              show okPid S (iterLive live p 0)
              rw [show iterLive live p 0 = p from rfl]
              exact ⟨fun h0 => h01 (Or.inl h0), fun h1 => h01 (Or.inr h1),
                by rw [hf]; rfl⟩
            · show commAt S (iterLive live p 0) = some "git"
              rw [show iterLive live p 0 = p from rfl]
              simp [commAt, hf, hg]
          · rw [if_neg hg] at h
            obtain ⟨n, hn, hall, hcomm⟩ := (ih (live p)).mp h
            refine ⟨n + 1, by omega, ?_, ?_⟩
            · intro m hm
              cases m with
              | zero =>
                show okPid S (iterLive live p 0)
                rw [show iterLive live p 0 = p from rfl]
                exact ⟨fun h0 => h01 (Or.inl h0), fun h1 => h01 (Or.inr h1),
                  by rw [hf]; rfl⟩
              | succ m2 =>
                rw [show iterLive live p (m2 + 1) = iterLive live (live p) m2 from rfl]
                exact hall m2 (by omega)
            · rw [show iterLive live p (n + 1) = iterLive live (live p) n from rfl]
              exact hcomm
    · rintro ⟨n, hn, hall, hcomm⟩
      have h0 := hall 0 (Nat.zero_le n)
      rw [show iterLive live p 0 = p from rfl] at h0
      obtain ⟨hp0, hp1, hfs⟩ := h0
      simp only [is_git_calling_us]
      rw [if_neg (fun h => h.elim hp0 hp1)]
      cases hf : findRec S p with
      | none => rw [hf] at hfs; simp at hfs
      | some r =>
        show (if r.comm = "git" then some true
            else is_git_calling_us S live fuel (live p)) = some true
        by_cases hg : r.comm = "git"
        · rw [if_pos hg]
        · rw [if_neg hg]
          cases n with
          | zero =>
            exfalso
            rw [show iterLive live p 0 = p from rfl] at hcomm
            simp [commAt, hf] at hcomm
            exact hg hcomm
          | succ n2 =>
            apply (ih (live p)).mpr
            refine ⟨n2, by omega, ?_, ?_⟩
            · intro m hm
              have := hall (m + 1) (by omega)
              rwa [show iterLive live p (m + 1) = iterLive live (live p) m from rfl]
                at this
            · have := hcomm
              rwa [show iterLive live p (n2 + 1) = iterLive live (live p) n2 from rfl]
                at this

/-- C5 witness: `is_git_calling_us_iff` applied at a concrete snapshot and
chain — the immediate parent 5 ("sh") has live parent 9 ("git"), so the walk
answers `some true` within fuel 3. -/
theorem is_git_calling_us_iff_witness :
    is_git_calling_us [ProcRec.mk 5 "sh", ProcRec.mk 9 "git"]
      (fun q => if q = 5 then 9 else 1) 3 5 = some true :=
  (is_git_calling_us_iff [ProcRec.mk 5 "sh", ProcRec.mk 9 "git"]
      (fun q => if q = 5 then 9 else 1) 3 5).mpr
    ⟨1, by omega, fun m hm => by interval_cases m <;> exact (by decide), by decide⟩

/-- C5 counterexample: a chain whose second element is pid 0 with snapshot
name "git".  Per the claim the verifier must answer true — "git" appears at
ancestry depth ≥ 1, no chain pid is the root pid 1, and every chain pid is
found in the snapshot (`specTrusted` holds) — but the code's
`while (parent_pid && parent_pid != 1)` loop also stops at pid 0 and returns
false. -/
theorem is_git_calling_us_counterexample :
    specTrusted [ProcRec.mk 5 "bash", ProcRec.mk 0 "git"]
      (fun q => if q = 5 then 0 else 1) 5 ∧
    is_git_calling_us [ProcRec.mk 5 "bash", ProcRec.mk 0 "git"]
      (fun q => if q = 5 then 0 else 1) 10 5 = some false := by
  constructor
  · refine ⟨1, ?_, by decide⟩
    intro m hm
    interval_cases m <;> exact (by decide)
  · decide

/-- C4 (amended): the verifier's answer is determined by the initial snapshot
together with the per-hop parent-pid reads at pids present in the snapshot:
two executions that agree on the snapshot and on the live parent reads for
every pid found in the snapshot return the same answer. -/
theorem is_git_calling_us_congr (S : List ProcRec) (live live2 : Nat → Nat)
    (h : ∀ q, (findRec S q).isSome → live q = live2 q) :
    ∀ fuel p, is_git_calling_us S live fuel p = is_git_calling_us S live2 fuel p := by
  intro fuel
  induction fuel with
  | zero => intro p; rfl
  | succ fuel ih =>
    intro p
    simp only [is_git_calling_us]
    by_cases h01 : p = 0 ∨ p = 1
    · simp [h01]
    · rw [if_neg h01, if_neg h01]
      cases hf : findRec S p with
      | none => rfl
      | some r =>
        show (if r.comm = "git" then some true
            else is_git_calling_us S live fuel (live p)) =
          (if r.comm = "git" then some true
            else is_git_calling_us S live2 fuel (live2 p))
        by_cases hg : r.comm = "git"
        · simp [hg]
        · rw [if_neg hg, if_neg hg, h p (by rw [hf]; rfl)]
          exact ih (live2 p)

/-- C4 witness: `is_git_calling_us_congr` at a concrete snapshot holding only
pid 5; the two live functions agree at pid 5 (both answer 1) and differ
everywhere else, and the two walks coincide. -/
theorem is_git_calling_us_congr_witness :
    is_git_calling_us [ProcRec.mk 5 "x"] (fun _ => 1) 3 5 =
      is_git_calling_us [ProcRec.mk 5 "x"] (fun q => if q = 5 then 1 else 7) 3 5 :=
  is_git_calling_us_congr [ProcRec.mk 5 "x"] (fun _ => 1)
    (fun q => if q = 5 then 1 else 7)
    (fun q hq => by
      by_cases h5 : q = 5
      · subst h5; decide
      · exfalso
        have hnone : findRec [ProcRec.mk 5 "x"] q = none := by
          simp [findRec, List.find?, Ne.symm h5]
        rw [hnone] at hq
        simp at hq)
    3 5

/-- C4 counterexample: two executions with the same initial snapshot (pids 5
and 7, names "bash" and "git") and the same starting pid 5, whose per-hop
live parent reads differ (5's live parent is 7 in the first run, 1 in the
second).  The claim says the answers must agree; they differ, because the
walk takes each parent pid from a fresh per-hop process-table read
(main.c:95-98), not from the initial snapshot. -/
theorem is_git_calling_us_snapshot_counterexample :
    is_git_calling_us [ProcRec.mk 5 "bash", ProcRec.mk 7 "git"]
      (fun q => if q = 5 then 7 else 1) 3 5 = some true ∧
    is_git_calling_us [ProcRec.mk 5 "bash", ProcRec.mk 7 "git"]
      (fun _ => 1) 3 5 = some false :=
  ⟨by decide, by decide⟩

theorem is_git_calling_us_isSome_of_terminal (S : List ProcRec)
    (live : Nat → Nat) :
    ∀ n p, (iterLive live p n = 0 ∨ iterLive live p n = 1 ∨
        findRec S (iterLive live p n) = none) →
      (is_git_calling_us S live (n + 1) p).isSome := by
  intro n
  induction n with
  | zero =>
    intro p hp
    rw [show iterLive live p 0 = p from rfl] at hp
    rw [is_git_calling_us]
    by_cases h01 : p = 0 ∨ p = 1
    · rw [if_pos h01]; rfl
    · rw [if_neg h01]
      have hf : findRec S p = none := by
        rcases hp with h | h | h
        · exact absurd (Or.inl h) h01
        · exact absurd (Or.inr h) h01
        · exact h
      rw [hf]
      rfl
  | succ n ihn =>
    intro p hp
    rw [is_git_calling_us]
    by_cases h01 : p = 0 ∨ p = 1
    · rw [if_pos h01]; rfl
    · rw [if_neg h01]
      cases hf : findRec S p with
      | none => rfl
      | some r =>
        show (if r.comm = "git" then some true
            else is_git_calling_us S live (n + 1) (live p)).isSome = true
        by_cases hg : r.comm = "git"
        · rw [if_pos hg]; rfl
        · rw [if_neg hg]
          apply ihn
          rwa [show iterLive live p (n + 1) = iterLive live (live p) n from rfl] at hp

/-- C10: whenever the parent-pid relation is acyclic in the claim's sense —
following the per-hop parent reads from any pid eventually reaches pid 0,
pid 1, or a pid absent from the snapshot — the ancestry walk terminates:
some fuel makes the fuel-indexed walk return an answer. -/
theorem is_git_calling_us_terminates (S : List ProcRec) (live : Nat → Nat)
    (p : Nat)
    (h : ∀ q, ∃ n, iterLive live q n = 0 ∨ iterLive live q n = 1 ∨
        findRec S (iterLive live q n) = none) :
    ∃ fuel, (is_git_calling_us S live fuel p).isSome := by
  obtain ⟨n, hn⟩ := h p
  exact ⟨n + 1, is_git_calling_us_isSome_of_terminal S live n p hn⟩

/-- C10 witness: `is_git_calling_us_terminates` on the snapshot holding only
pid 5 with every live parent read answering 1, starting from pid 5; every
chain reaches pid 1 after one hop. -/
theorem is_git_calling_us_terminates_witness :
    ∃ fuel, (is_git_calling_us [ProcRec.mk 5 "bash"] (fun _ => 1) fuel 5).isSome :=
  is_git_calling_us_terminates [ProcRec.mk 5 "bash"] (fun _ => 1) 5
    (fun _ => ⟨1, Or.inr (Or.inl rfl)⟩)

theorem find_keychain_item_notFound (raw : FindRaw) (incl : Bool)
    (h : raw.status = errSecItemNotFound) :
    find_keychain_item raw incl = .ok none := by
  unfold find_keychain_item
  rw [h]
  rfl

theorem find_keychain_item_error (raw : FindRaw) (incl : Bool)
    (h0 : raw.status ≠ 0) (hnf : raw.status ≠ errSecItemNotFound) :
    find_keychain_item raw incl = .error raw.status := by
  unfold find_keychain_item
  rw [if_neg h0, if_neg hnf]

theorem find_keychain_item_success (raw : FindRaw) (incl : Bool)
    (h : raw.status = 0) :
    find_keychain_item raw incl =
      .ok (some { username := raw.item.username,
                  password := if incl then some raw.item.password else none }) := by
  unfold find_keychain_item
  rw [if_pos h]

theorem get_username_miss (env : Env)
    (hmiss : env.findRaw.status = errSecItemNotFound)
    (hcr : env.createStatus = 0) :
    get_username env =
      (.ok env.promptUser,
       [.findEv (trim_repositoryS env.originUrl), .promptEv "Username: ",
        .promptEv "Password: ",
        .createEv (trim_repositoryS env.originUrl) env.promptUser env.promptPass]) := by
  have hf : find_keychain_item env.findRaw false = .ok none :=
    find_keychain_item_notFound env.findRaw false hmiss
  have hc : create_keychain_item env.createStatus = .ok () := by
    unfold create_keychain_item
    rw [hcr]
    rfl
  simp only [get_username, hf, hc]

theorem get_password_miss (env : Env)
    (hmiss : env.findRaw.status = errSecItemNotFound)
    (hcr : env.createStatus = 0) :
    get_password env =
      (.ok env.promptPass,
       [.findEv (trim_repositoryS env.originUrl), .promptEv "Password: ",
        .createEv (trim_repositoryS env.originUrl) "" env.promptPass]) := by
  have hf : find_keychain_item env.findRaw true = .ok none :=
    find_keychain_item_notFound env.findRaw true hmiss
  have hc : create_keychain_item env.createStatus = .ok () := by
    unfold create_keychain_item
    rw [hcr]
    rfl
  simp only [get_password, hf, hc]

theorem get_username_create_error (env : Env) (c : Int)
    (hmiss : env.findRaw.status = errSecItemNotFound)
    (hcr : env.createStatus = c) (hc0 : c ≠ 0) :
    get_username env =
      (.fatal (.sec c),
       [.findEv (trim_repositoryS env.originUrl), .promptEv "Username: ",
        .promptEv "Password: ",
        .createEv (trim_repositoryS env.originUrl) env.promptUser env.promptPass]) := by
  have hf : find_keychain_item env.findRaw false = .ok none :=
    find_keychain_item_notFound env.findRaw false hmiss
  have hc : create_keychain_item env.createStatus = .error c := by
    unfold create_keychain_item
    rw [hcr, if_neg hc0]
  simp only [get_username, hf, hc]

theorem get_password_create_error (env : Env) (c : Int)
    (hmiss : env.findRaw.status = errSecItemNotFound)
    (hcr : env.createStatus = c) (hc0 : c ≠ 0) :
    get_password env =
      (.fatal (.sec c),
       [.findEv (trim_repositoryS env.originUrl), .promptEv "Password: ",
        .createEv (trim_repositoryS env.originUrl) "" env.promptPass]) := by
  have hf : find_keychain_item env.findRaw true = .ok none :=
    find_keychain_item_notFound env.findRaw true hmiss
  have hc : create_keychain_item env.createStatus = .error c := by
    unfold create_keychain_item
    rw [hcr, if_neg hc0]
  simp only [get_password, hf, hc]

theorem get_username_find_error (env : Env)
    (h0 : env.findRaw.status ≠ 0) (hnf : env.findRaw.status ≠ errSecItemNotFound) :
    get_username env =
      (.fatal (.sec env.findRaw.status), [.findEv (trim_repositoryS env.originUrl)]) := by
  have hf := find_keychain_item_error env.findRaw false h0 hnf
  simp only [get_username, hf]

theorem get_password_find_error (env : Env)
    (h0 : env.findRaw.status ≠ 0) (hnf : env.findRaw.status ≠ errSecItemNotFound) :
    get_password env =
      (.fatal (.sec env.findRaw.status), [.findEv (trim_repositoryS env.originUrl)]) := by
  have hf := find_keychain_item_error env.findRaw true h0 hnf
  simp only [get_password, hf]

theorem get_username_hit (env : Env) (h : env.findRaw.status = 0) :
    get_username env =
      (.ok env.findRaw.item.username, [.findEv (trim_repositoryS env.originUrl)]) := by
  have hf := find_keychain_item_success env.findRaw false h
  simp only [get_username, hf]

theorem get_password_hit (env : Env) (h : env.findRaw.status = 0) :
    get_password env =
      (.ok env.findRaw.item.password, [.findEv (trim_repositoryS env.originUrl)]) := by
  have hf := find_keychain_item_success env.findRaw true h
  simp [get_password, hf]

/-- C1 counterexample: a concrete Password resolution with no existing record
(find answers `errSecItemNotFound`, create succeeds).  The claim requires two
sequential prompts, username first, and a persisted record holding both
entered fields; the code's `get_password` issues only the single
"Password: " prompt — no "Username: " prompt ever occurs — and creates the
record with the empty string as its username (main.c:285-286). -/
theorem resolver_miss_counterexample :
    get_password
      { snapshot := [], live := fun _ => 1, ppid := 1, args := [],
        originUrl := "https://example.com/org/repo.git",
        findRaw := { status := errSecItemNotFound,
                     item := { username := "", password := "" } },
        createStatus := 0, promptUser := "alice", promptPass := "s3cret" } =
      (.ok "s3cret",
       [.findEv "https://example.com/", .promptEv "Password: ",
        .createEv "https://example.com/" "" "s3cret"]) ∧
    Event.promptEv "Username: " ∉
      (get_password
        { snapshot := [], live := fun _ => 1, ppid := 1, args := [],
          originUrl := "https://example.com/org/repo.git",
          findRaw := { status := errSecItemNotFound,
                       item := { username := "", password := "" } },
          createStatus := 0, promptUser := "alice", promptPass := "s3cret" }).2 :=
  ⟨by decide, by decide⟩

/-- C1 (amended): for a key with no existing record (find answers "not
found") and a successful create, resolving Username prompts for a username
and then a password, persists both entered fields and returns the entered
username; resolving Password prompts only for a password, persists the record
with the empty string as its username, and returns the entered password.  In
both cases the returned field comes from the just-entered values. -/
theorem resolver_miss_behavior (env : Env)
    (hmiss : env.findRaw.status = errSecItemNotFound)
    (hcr : env.createStatus = 0) :
    get_username env =
      (.ok env.promptUser,
       [.findEv (trim_repositoryS env.originUrl), .promptEv "Username: ",
        .promptEv "Password: ",
        .createEv (trim_repositoryS env.originUrl) env.promptUser env.promptPass]) ∧
    get_password env =
      (.ok env.promptPass,
       [.findEv (trim_repositoryS env.originUrl), .promptEv "Password: ",
        .createEv (trim_repositoryS env.originUrl) "" env.promptPass]) :=
  ⟨get_username_miss env hmiss hcr, get_password_miss env hmiss hcr⟩

/-- C1 witness: `resolver_miss_behavior` at a concrete environment (the
sample URL, a store miss, entered values "alice" and "s3cret"). -/
theorem resolver_miss_behavior_witness :
    get_username
      { snapshot := [], live := fun _ => 1, ppid := 1, args := [],
        originUrl := "https://example.com/org/repo.git",
        findRaw := { status := errSecItemNotFound,
                     item := { username := "", password := "" } },
        createStatus := 0, promptUser := "alice", promptPass := "s3cret" } =
      (.ok "alice",
       [.findEv "https://example.com/", .promptEv "Username: ",
        .promptEv "Password: ",
        .createEv "https://example.com/" "alice" "s3cret"]) ∧
    get_password
      { snapshot := [], live := fun _ => 1, ppid := 1, args := [],
        originUrl := "https://example.com/org/repo.git",
        findRaw := { status := errSecItemNotFound,
                     item := { username := "", password := "" } },
        createStatus := 0, promptUser := "alice", promptPass := "s3cret" } =
      (.ok "s3cret",
       [.findEv "https://example.com/", .promptEv "Password: ",
        .createEv "https://example.com/" "" "s3cret"]) :=
  resolver_miss_behavior _ rfl rfl

/-- C3 counterexample: a concrete miss-then-create run in which the create
call reports `errSecDuplicateItem` ("already exists").  The claim says the
resolver treats this as success-equivalent and does not terminate fatally;
the code hands the status to `security` (main.c:225), which exits fatally
with that status. -/
theorem create_duplicate_counterexample :
    (get_password
      { snapshot := [], live := fun _ => 1, ppid := 1, args := [],
        originUrl := "https://example.com/org/repo.git",
        findRaw := { status := errSecItemNotFound,
                     item := { username := "", password := "" } },
        createStatus := errSecDuplicateItem,
        promptUser := "alice", promptPass := "s3cret" }).1 =
      .fatal (.sec errSecDuplicateItem) := by decide

/-- C3 (amended): when the create call reports that a record for the key
already exists (`errSecDuplicateItem`), the resolver terminates fatally
through the `security` error path, surfacing that status; it does not prompt
the user again — the trace holds exactly the single pre-create prompt
sequence of the purpose being resolved. -/
theorem create_duplicate_fatal (env : Env)
    (hmiss : env.findRaw.status = errSecItemNotFound)
    (hdup : env.createStatus = errSecDuplicateItem) :
    get_username env =
      (.fatal (.sec errSecDuplicateItem),
       [.findEv (trim_repositoryS env.originUrl), .promptEv "Username: ",
        .promptEv "Password: ",
        .createEv (trim_repositoryS env.originUrl) env.promptUser env.promptPass]) ∧
    get_password env =
      (.fatal (.sec errSecDuplicateItem),
       [.findEv (trim_repositoryS env.originUrl), .promptEv "Password: ",
        .createEv (trim_repositoryS env.originUrl) "" env.promptPass]) :=
  ⟨get_username_create_error env errSecDuplicateItem hmiss hdup (by decide),
   get_password_create_error env errSecDuplicateItem hmiss hdup (by decide)⟩

/-- C3 witness: `create_duplicate_fatal` at a concrete environment with
a store miss and a duplicate-item create status. -/
theorem create_duplicate_fatal_witness :
    get_username
      { snapshot := [], live := fun _ => 1, ppid := 1, args := [],
        originUrl := "https://example.com/org/repo.git",
        findRaw := { status := errSecItemNotFound,
                     item := { username := "", password := "" } },
        createStatus := errSecDuplicateItem,
        promptUser := "bob", promptPass := "pw" } =
      (.fatal (.sec errSecDuplicateItem),
       [.findEv "https://example.com/", .promptEv "Username: ",
        .promptEv "Password: ",
        .createEv "https://example.com/" "bob" "pw"]) ∧
    get_password
      { snapshot := [], live := fun _ => 1, ppid := 1, args := [],
        originUrl := "https://example.com/org/repo.git",
        findRaw := { status := errSecItemNotFound,
                     item := { username := "", password := "" } },
        createStatus := errSecDuplicateItem,
        promptUser := "bob", promptPass := "pw" } =
      (.fatal (.sec errSecDuplicateItem),
       [.findEv "https://example.com/", .promptEv "Password: ",
        .createEv "https://example.com/" "" "pw"]) :=
  create_duplicate_fatal _ rfl rfl

/-- C8: during the initial lookup, every store status other than success (0)
and "not found" (`errSecItemNotFound`) terminates both resolver paths fatally
with that status surfaced, performing no prompt and no create call (the trace
holds only the find event); and the miss outcome `.ok none`, the only one
that proceeds to the prompt-and-create path, arises exactly from the
`errSecItemNotFound` status. -/
theorem find_error_is_fatal :
    (∀ env : Env, env.findRaw.status ≠ 0 → env.findRaw.status ≠ errSecItemNotFound →
      get_username env =
        (.fatal (.sec env.findRaw.status), [.findEv (trim_repositoryS env.originUrl)]) ∧
      get_password env =
        (.fatal (.sec env.findRaw.status), [.findEv (trim_repositoryS env.originUrl)])) ∧
    (∀ (raw : FindRaw) (incl : Bool),
      find_keychain_item raw incl = .ok none → raw.status = errSecItemNotFound) := by
  constructor
  · intro env h0 hnf
    exact ⟨get_username_find_error env h0 hnf, get_password_find_error env h0 hnf⟩
  · intro raw incl h
    unfold find_keychain_item at h
    by_cases h0 : raw.status = 0
    · rw [if_pos h0] at h
      simp at h
    · rw [if_neg h0] at h
      by_cases hnf : raw.status = errSecItemNotFound
      · exact hnf
      · rw [if_neg hnf] at h
        exact Except.noConfusion h

/-- C8 witness: `find_error_is_fatal` at a concrete environment whose find
call answers the non-not-found error status -128 (user canceled). -/
theorem find_error_is_fatal_witness :
    get_username
      { snapshot := [], live := fun _ => 1, ppid := 1, args := [],
        originUrl := "https://example.com/org/repo.git",
        findRaw := { status := -128, item := { username := "", password := "" } },
        createStatus := 0, promptUser := "alice", promptPass := "s3cret" } =
      (.fatal (.sec (-128)), [.findEv "https://example.com/"]) ∧
    get_password
      { snapshot := [], live := fun _ => 1, ppid := 1, args := [],
        originUrl := "https://example.com/org/repo.git",
        findRaw := { status := -128, item := { username := "", password := "" } },
        createStatus := 0, promptUser := "alice", promptPass := "s3cret" } =
      (.fatal (.sec (-128)), [.findEv "https://example.com/"]) :=
  find_error_is_fatal.1 _ (by decide) (by decide)

/-- C9: when Password is the first purpose resolved for a key with no
existing record (against an otherwise error-free store), the run prompts only
for the password, persists the record with the empty string as its username,
and returns the entered password; and against the store holding that created
record, every subsequent Username resolution returns the empty string with no
prompt and no create call (its trace is the lone find event). -/
theorem password_first_empty_username (store : Store) (url userIn passIn u2 p2 : String)
    (h : store (trim_repositoryS url) = none) :
    get_password (honestEnv store url userIn passIn) =
      (.ok passIn,
       [.findEv (trim_repositoryS url), .promptEv "Password: ",
        .createEv (trim_repositoryS url) "" passIn]) ∧
    get_username (honestEnv (applyCreate store (trim_repositoryS url) "" passIn) url u2 p2) =
      (.ok "", [.findEv (trim_repositoryS url)]) := by
  constructor
  · have hmiss : (honestEnv store url userIn passIn).findRaw.status = errSecItemNotFound := by
      show (honestFind store (trim_repositoryS url)).status = errSecItemNotFound
      unfold honestFind
      rw [h]
    exact get_password_miss (honestEnv store url userIn passIn) hmiss rfl
  · have hhit :
        (honestEnv (applyCreate store (trim_repositoryS url) "" passIn) url u2 p2).findRaw.status = 0 := by
      show (honestFind (applyCreate store (trim_repositoryS url) "" passIn)
        (trim_repositoryS url)).status = 0
      unfold honestFind applyCreate
      rw [if_pos rfl]
    have hu :
        (honestEnv (applyCreate store (trim_repositoryS url) "" passIn) url u2 p2).findRaw.item.username = "" := by
      show (honestFind (applyCreate store (trim_repositoryS url) "" passIn)
        (trim_repositoryS url)).item.username = ""
      unfold honestFind applyCreate
      rw [if_pos rfl]
    rw [get_username_hit _ hhit, hu]
    rfl

/-- C9 witness: `password_first_empty_username` on the empty store and the
sample URL. -/
theorem password_first_empty_username_witness :
    get_password (honestEnv (fun _ => none) "https://example.com/org/repo.git" "alice" "s3cret") =
      (.ok "s3cret",
       [.findEv (trim_repositoryS "https://example.com/org/repo.git"), .promptEv "Password: ",
        .createEv (trim_repositoryS "https://example.com/org/repo.git") "" "s3cret"]) ∧
    get_username
      (honestEnv
        (applyCreate (fun _ => none)
          (trim_repositoryS "https://example.com/org/repo.git") "" "s3cret")
        "https://example.com/org/repo.git" "u" "p") =
      (.ok "", [.findEv (trim_repositoryS "https://example.com/org/repo.git")]) :=
  password_first_empty_username (fun _ => none)
    "https://example.com/org/repo.git" "alice" "s3cret" "u" "p" rfl

/-- C2 counterexample: a trusted caller (immediate parent 7 named "git" in
the snapshot) invokes the helper with the argument "Email: ".  The run does
exit fatally with a non-zero status, but the claim additionally requires
that no trust-verifier call is performed before the exit — the trace shows
the trust check as the first effect actually performed (main.c:296 runs
`is_git_calling_us` before any argument validation). -/
theorem usage_error_counterexample :
    mainRun
      { snapshot := [ProcRec.mk 7 "git"], live := fun _ => 1, ppid := 7,
        args := ["git-password", "Email: "],
        originUrl := "https://example.com/org/repo.git",
        findRaw := { status := errSecItemNotFound,
                     item := { username := "", password := "" } },
        createStatus := 0, promptUser := "alice", promptPass := "s3cret" } 2 =
      (.fatal .onlyGit, [.trustEv]) ∧
    Event.trustEv ∈
      (mainRun
        { snapshot := [ProcRec.mk 7 "git"], live := fun _ => 1, ppid := 7,
          args := ["git-password", "Email: "],
          originUrl := "https://example.com/org/repo.git",
          findRaw := { status := errSecItemNotFound,
                       item := { username := "", password := "" } },
          createStatus := 0, promptUser := "alice", promptPass := "s3cret" } 2).2 :=
  ⟨by decide, by decide⟩

/-- C2 (amended): with a wrong argument count or an argument other than
"Username: " or "Password: ", the program exits with the fatal "can only be
used by git" diagnostic and non-zero status before performing any
secret-store call or prompt (the trace holds no find, create or prompt
event); the trust-verifier call, however, is performed first, before any
argument validation, whenever the ancestry walk terminates. -/
theorem bad_args_fatal (env : Env) (fuel : Nat) (b : Bool)
    (hw : is_git_calling_us env.snapshot env.live fuel env.ppid = some b)
    (hargs : badArgs env.args = true) :
    mainRun env fuel = (.fatal .onlyGit, [.trustEv]) := by
  cases b with
  | false => simp only [mainRun, hw]
  | true =>
    cases hal : env.args with
    | nil => simp only [mainRun, hw, hal]
    | cons a rest =>
      cases rest with
      | nil => simp only [mainRun, hw, hal]
      | cons a2 rest2 =>
        cases rest2 with
        | cons a3 rest3 => simp only [mainRun, hw, hal]
        | nil =>
          rw [hal] at hargs
          simp [badArgs] at hargs
          simp only [mainRun, hw, hal, if_neg hargs.1, if_neg hargs.2]

/-- C2 witness: `bad_args_fatal` for a trusted caller invoked with the wrong
argument count (a single argv entry). -/
theorem bad_args_fatal_witness :
    mainRun
      { snapshot := [ProcRec.mk 7 "git"], live := fun _ => 1, ppid := 7,
        args := ["git-password"],
        originUrl := "https://example.com/org/repo.git",
        findRaw := { status := errSecItemNotFound,
                     item := { username := "", password := "" } },
        createStatus := 0, promptUser := "alice", promptPass := "s3cret" } 2 =
      (.fatal .onlyGit, [.trustEv]) :=
  bad_args_fatal _ 2 true (by decide) (by decide)

/-- C6: in every execution the caller-trust check is the first effect — the
event trace always starts with the trust-check event, so every store access
and every prompt comes after it — and whenever the ancestry walk ends
without a match (`some false`), the program terminates fatally with the
"can only be used by git" diagnostic and the trace holds no store and no
prompt event at all, regardless of argument validity. -/
theorem trust_check_first (env : Env) (fuel : Nat) :
    (∃ rest, (mainRun env fuel).2 = Event.trustEv :: rest) ∧
    (is_git_calling_us env.snapshot env.live fuel env.ppid = some false →
      mainRun env fuel = (.fatal .onlyGit, [.trustEv])) := by
  constructor
  · cases hw : is_git_calling_us env.snapshot env.live fuel env.ppid with
    | none => exact ⟨[], by simp only [mainRun, hw]⟩
    | some b =>
      cases b with
      | false => exact ⟨[], by simp only [mainRun, hw]⟩
      | true =>
        cases hal : env.args with
        | nil => exact ⟨[], by simp only [mainRun, hw, hal]⟩
        | cons a rest =>
          cases rest with
          | nil => exact ⟨[], by simp only [mainRun, hw, hal]⟩
          | cons a2 rest2 =>
            cases rest2 with
            | cons a3 rest3 => exact ⟨[], by simp only [mainRun, hw, hal]⟩
            | nil =>
              by_cases h1 : a2 = "Username: "
              · exact ⟨(get_username env).2, by simp only [mainRun, hw, hal, if_pos h1]⟩
              · by_cases h2 : a2 = "Password: "
                · exact ⟨(get_password env).2,
                    by simp only [mainRun, hw, hal, if_neg h1, if_pos h2]⟩
                · exact ⟨[], by simp only [mainRun, hw, hal, if_neg h1, if_neg h2]⟩
  · intro hw
    simp only [mainRun, hw]

/-- C6 witness: a caller whose immediate parent pid 9 is missing from the
snapshot — the walk ends without a match — invoked with the valid argument
"Password: ": the run is fatal and its trace holds only the trust-check
event. -/
theorem trust_check_first_witness :
    mainRun
      { snapshot := [ProcRec.mk 5 "bash"], live := fun _ => 1, ppid := 9,
        args := ["git-password", "Password: "],
        originUrl := "https://example.com/org/repo.git",
        findRaw := { status := errSecItemNotFound,
                     item := { username := "", password := "" } },
        createStatus := 0, promptUser := "alice", promptPass := "s3cret" } 2 =
      (.fatal .onlyGit, [.trustEv]) :=
  (trust_check_first _ 2).2 (by decide)

end GitPassword
